import Mathlib

/-!
Shallow embedding of the virtual block device driver in
`source/diskio_working.c` (PyFatFs repository).

Modelling conventions:
* Bytes are `Nat` (values 0..255); buffers and file contents are total
  functions `Nat → Nat` read at byte addresses.
* The C statics (`virtual_disk`, `disk_initialized`, `disk_file`,
  `use_file_backend`) together with the host environment (the single
  backing file `fatfs_disk.img`, the allocator, the open-handle count)
  form one state record `Sys`; every operation threads it explicitly.
* `LBA_t` and `UINT` are 32-bit unsigned integers (FatFs default
  configuration: `FF_LBA64 = 0`, so `LBA_t` is `DWORD`); C arithmetic on
  them is modelled as `Nat` arithmetic reduced `% 2^32` exactly where the
  C expression is computed at 32-bit width.  `size_t` is 64 bits, so a
  32-bit product widened into a `size_t` variable keeps its wrapped value.
* `fopen`/`fseek`/`fread`/`fwrite` are modelled deterministically: open
  of an existing file succeeds, creation succeeds iff the environment
  flag `canCreate` holds, `calloc` succeeds iff `canAlloc` holds, and
  each `fwrite` of the zero-fill loop in `init_virtual_disk` succeeds or
  fails according to an explicit oracle argument (a failed write writes
  nothing).  Writes outside the loop always transfer all bytes; a read
  past end-of-file transfers only the bytes that exist.
-/

namespace DiskIO

/-- A byte value. -/
abbrev Byte := Nat

/-- Macro `SECTOR_SIZE` = 512 (diskio_working.c line 12). -/
def SECTOR_SIZE : Nat := 512

/-- Macro `TOTAL_SECTORS` = 8192 (diskio_working.c line 13). -/
def TOTAL_SECTORS : Nat := 8192

/-- Width modulus of the 32-bit types `LBA_t` (= `DWORD`) and `UINT`. -/
def U32 : Nat := 2 ^ 32

/-- FatFs `DRESULT` codes returned by the disk functions. -/
inductive DRESULT where
  | RES_OK
  | RES_ERROR
  | RES_WRPRT
  | RES_NOTRDY
  | RES_PARERR
deriving DecidableEq, Repr

/-- FatFs `STA_NOINIT` status bit, returned as a `DSTATUS` value. -/
def STA_NOINIT : Nat := 1

/-- FatFs ioctl command codes from `diskio.h`. -/
def CTRL_SYNC : Nat := 0

/-- Command code `GET_SECTOR_COUNT`. -/
def GET_SECTOR_COUNT : Nat := 1

/-- Command code `GET_SECTOR_SIZE`. -/
def GET_SECTOR_SIZE : Nat := 2

/-- Command code `GET_BLOCK_SIZE`. -/
def GET_BLOCK_SIZE : Nat := 3

/-- Contents of the backing file `fatfs_disk.img`: byte contents, length
in bytes, and whether all buffered writes have been flushed to the OS. -/
structure FileRec where
  data : Nat → Byte
  size : Nat
  flushed : Bool

/-- The driver statics of diskio_working.c plus its host environment. -/
structure Sys where
  /-- The backing file at `DISK_IMAGE_FILE`, if it exists on disk. -/
  fs : Option FileRec
  /-- Whether `fopen(DISK_IMAGE_FILE, "w+b")` can create the file. -/
  canCreate : Bool
  /-- Whether `calloc` succeeds. -/
  canAlloc : Bool
  /-- Number of currently open `FILE*` handles (leak accounting). -/
  openHandles : Nat
  /-- Static `int disk_initialized` (line 18). -/
  disk_initialized : Bool
  /-- Static `int use_file_backend` (line 22). -/
  use_file_backend : Bool
  /-- Static `BYTE* virtual_disk` (line 17): the memory buffer if allocated. -/
  virtual_disk : Option (Nat → Byte)
  /-- Whether static `FILE* disk_file` (line 21) is non-NULL. -/
  disk_file : Bool

/-- Model of `fwrite` of `n` bytes of `src` at absolute position `pos` after an
`fseek`: overwrites `[pos, pos+n)`, extends the file when it writes past
end-of-file (the seek gap reads back as zero bytes), and marks the file
unflushed.  A zero-byte write transfers nothing and does not extend. -/
def fwriteAt (fr : FileRec) (pos n : Nat) (src : Nat → Byte) : FileRec :=
  if n = 0 then fr
  else
    { data := fun a =>
        if pos ≤ a ∧ a < pos + n then src (a - pos)
        else if fr.size ≤ a ∧ a < pos then 0
        else fr.data a
      size := max fr.size (pos + n)
      flushed := false }

/-- Number of bytes `fread` actually transfers when asked for `n` bytes
at position `pos`: everything up to end-of-file. -/
def freadLen (fr : FileRec) (pos n : Nat) : Nat :=
  if pos ≤ fr.size then min n (fr.size - pos) else 0

/-- Buffer contents after `fread(buff, 1, n, f)` at position `pos`. -/
def freadInto (fr : FileRec) (pos n : Nat) (buff : Nat → Byte) : Nat → Byte :=
  fun a => if a < freadLen fr pos n then fr.data (pos + a) else buff a

/-- Model of `fflush` (also performed by `fclose`): commits buffered data. -/
def fflushRec (fr : FileRec) : FileRec :=
  { data := fr.data, size := fr.size, flushed := true }

/-- A freshly created (`"w+b"`) empty file. -/
def emptyFile : FileRec :=
  { data := fun _ => 0, size := 0, flushed := true }

/-- The range check shared by `disk_read` (line 132) and `disk_write`
(line 175): `sector >= TOTAL_SECTORS || (sector + count) > TOTAL_SECTORS`,
where the sum of the 32-bit operands wraps modulo `2^32`. -/
def rangeRejected (sector count : Nat) : Bool :=
  decide (TOTAL_SECTORS ≤ sector) || decide (TOTAL_SECTORS < (sector + count) % U32)

/-- The zero-fill loop of `init_virtual_disk` (lines 43-49): `n` remaining
iterations, loop counter `i`, current file `fr`; the oracle `fail i` says
whether the `i`-th `fwrite` fails (`!= SECTOR_SIZE`).  Returns the success
flag and the file as written so far; on failure the loop stops at once. -/
def zeroFillSteps (fail : Nat → Bool) : Nat → Nat → FileRec → Bool × FileRec
  | 0, _, fr => (true, fr)
  | n + 1, i, fr =>
    if fail i then (false, fr)
    else zeroFillSteps fail n (i + 1) (fwriteAt fr fr.size SECTOR_SIZE (fun _ => 0))

/-- Model of `init_virtual_disk` (lines 27-64), with the `fwrite` failure oracle as
an explicit argument.  Returns the C `int` result as a `Bool` plus the new
state.  Note the function never consults `disk_initialized` before acting:
with the file backend it unconditionally calls `fopen`. -/
def init_virtual_disk (s : Sys) (fail : Nat → Bool) : Bool × Sys :=
  if s.use_file_backend then
    match s.fs with
    | some _ =>
      -- fopen(DISK_IMAGE_FILE, "r+b") succeeds on the existing image;
      -- the previous value of disk_file is overwritten, not closed.
      (true, { s with disk_file := true, openHandles := s.openHandles + 1,
                      disk_initialized := true })
    | none =>
      if s.canCreate then
        -- fopen(DISK_IMAGE_FILE, "w+b") creates an empty file.
        match zeroFillSteps fail TOTAL_SECTORS 0 emptyFile with
        | (true, fr) =>
          (true, { s with fs := some (fflushRec fr), disk_file := true,
                          openHandles := s.openHandles + 1,
                          disk_initialized := true })
        | (false, fr) =>
          -- fclose(disk_file); disk_file = NULL; return 0;
          (false, { s with fs := some (fflushRec fr), disk_file := false,
                           openHandles := s.openHandles })
      else
        (false, { s with disk_file := false })
  else
    match s.virtual_disk with
    | some _ => (true, { s with disk_initialized := true })
    | none =>
      if s.canAlloc then
        (true, { s with virtual_disk := some (fun _ => 0),
                        disk_initialized := true })
      else (false, s)

/-- Model of `disk_initialize` (lines 102-116): drive 0 delegates to
`init_virtual_disk`; any other drive returns `STA_NOINIT`. -/
def disk_init (s : Sys) (pdrv : Nat) (fail : Nat → Bool) : Nat × Sys :=
  if pdrv = 0 then
    match init_virtual_disk s fail with
    | (true, s2) => (0, s2)
    | (false, s2) => (STA_NOINIT, s2)
  else (STA_NOINIT, s)

/-- Model of `disk_read` (lines 121-158).  Returns the `DRESULT` and the caller's
buffer after the call (bytes the backend copied in, the rest untouched).
The byte offset `sector * SECTOR_SIZE` and the length
`count * SECTOR_SIZE` are 32-bit products, hence reduced `% U32`. -/
def disk_read (s : Sys) (pdrv : Nat) (buff : Nat → Byte) (sector count : Nat) :
    DRESULT × (Nat → Byte) :=
  if pdrv ≠ 0 ∨ s.disk_initialized = false then (DRESULT.RES_PARERR, buff)
  else if rangeRejected sector count then (DRESULT.RES_PARERR, buff)
  else if s.use_file_backend ∧ s.disk_file then
    match s.fs with
    | some fr =>
      -- fseek succeeds (SEEK_SET, non-negative offset), then fread.
      let pos := (sector * SECTOR_SIZE) % U32
      let n := (count * SECTOR_SIZE) % U32
      let buff2 := freadInto fr pos n buff
      if freadLen fr pos n ≠ n then (DRESULT.RES_ERROR, buff2)
      else (DRESULT.RES_OK, buff2)
    | none =>
      -- disk_file non-NULL with no backing file: unreachable for states
      -- the driver itself produces.
      (DRESULT.RES_ERROR, buff)
  else
    match s.virtual_disk with
    | some vd =>
      let off := (sector * SECTOR_SIZE) % U32
      let n := (count * SECTOR_SIZE) % U32
      (DRESULT.RES_OK, fun a => if a < n then vd (off + a) else buff a)
    | none => (DRESULT.RES_ERROR, buff)

/-- Model of `disk_write` (lines 164-203).  Returns the `DRESULT` and the new
state; the file backend flushes after every successful write. -/
def disk_write (s : Sys) (pdrv : Nat) (buff : Nat → Byte) (sector count : Nat) :
    DRESULT × Sys :=
  if pdrv ≠ 0 ∨ s.disk_initialized = false then (DRESULT.RES_PARERR, s)
  else if rangeRejected sector count then (DRESULT.RES_PARERR, s)
  else if s.use_file_backend ∧ s.disk_file then
    match s.fs with
    | some fr =>
      let pos := (sector * SECTOR_SIZE) % U32
      let n := (count * SECTOR_SIZE) % U32
      (DRESULT.RES_OK, { s with fs := some (fflushRec (fwriteAt fr pos n buff)) })
    | none => (DRESULT.RES_ERROR, s)
  else
    match s.virtual_disk with
    | some vd =>
      let off := (sector * SECTOR_SIZE) % U32
      let n := (count * SECTOR_SIZE) % U32
      let vd2 : Nat → Byte := fun a =>
        if off ≤ a ∧ a < off + n then buff (a - off) else vd a
      (DRESULT.RES_OK, { s with virtual_disk := some vd2 })
    | none => (DRESULT.RES_ERROR, s)

/-- Model of `disk_ioctl` (lines 209-242).  Returns the `DRESULT`, the value
written through `buff` (if any), and the new state (`CTRL_SYNC` flushes
the file backend). -/
def disk_ioctl (s : Sys) (pdrv cmd : Nat) : DRESULT × Option Nat × Sys :=
  if pdrv ≠ 0 then (DRESULT.RES_PARERR, none, s)
  else if cmd = CTRL_SYNC then
    if s.use_file_backend ∧ s.disk_file then
      (DRESULT.RES_OK, none, { s with fs := Option.map fflushRec s.fs })
    else (DRESULT.RES_OK, none, s)
  else if cmd = GET_SECTOR_COUNT then (DRESULT.RES_OK, some TOTAL_SECTORS, s)
  else if cmd = GET_SECTOR_SIZE then (DRESULT.RES_OK, some SECTOR_SIZE, s)
  else if cmd = GET_BLOCK_SIZE then (DRESULT.RES_OK, some 1, s)
  else (DRESULT.RES_PARERR, none, s)

/-- Model of `get_disk_info` (lines 279-283).  The two arguments model the two out
pointers: `none` is a NULL pointer, `some v` a non-NULL pointer whose
pointee currently holds `v`.  The result is the pointees after the call.
The C body reads none of the driver statics, so `s` is unused. -/
def get_disk_info (_s : Sys) (total_sectors sector_size : Option Nat) :
    Option Nat × Option Nat :=
  (Option.map (fun _ => TOTAL_SECTORS) total_sectors,
   Option.map (fun _ => SECTOR_SIZE) sector_size)

/-- The spec's §4.1 validity predicate, written from the spec's words
(not from the code): valid iff
`sectorCount > 0 ∧ startSector < totalSectors ∧
 startSector + sectorCount <= totalSectors`, the sum exact. -/
def validRequestSpec (startSector sectorCount : Nat) : Prop :=
  0 < sectorCount ∧ startSector < TOTAL_SECTORS ∧
    startSector + sectorCount ≤ TOTAL_SECTORS

instance (s c : Nat) : Decidable (validRequestSpec s c) := by
  unfold validRequestSpec; infer_instance

/-- The backend the read/write path would use is actually present. -/
def backendPresent (s : Sys) : Bool :=
  if s.use_file_backend && s.disk_file then s.fs.isSome else s.virtual_disk.isSome

/-- An `fwrite` oracle on which every write succeeds. -/
def noFail : Nat → Bool := fun _ => false

/-- An `fwrite` oracle whose fourth write (index 3) fails. -/
def failAt3 : Nat → Bool := fun i => decide (i = 3)

/-- An all-zero caller buffer. -/
def buff0 : Nat → Byte := fun _ => 0

/-- A ready device on the memory backend (after a successful
memory-backend `disk_initialize`). -/
def memReadySys : Sys :=
  { fs := none, canCreate := true, canAlloc := true, openHandles := 0,
    disk_initialized := true, use_file_backend := false,
    virtual_disk := some (fun _ => 0), disk_file := false }

/-- A memory-backend device before any successful `disk_initialize`. -/
def memUninitSys : Sys :=
  { fs := none, canCreate := true, canAlloc := true, openHandles := 0,
    disk_initialized := false, use_file_backend := false,
    virtual_disk := none, disk_file := false }

/-- A full-size, all-zero, flushed disk image. -/
def fullFile : FileRec :=
  { data := fun _ => 0, size := TOTAL_SECTORS * SECTOR_SIZE, flushed := true }

/-- A file-backend device before initialization, with the disk image
already present on disk (persisted by an earlier run). -/
def fileFreshSys : Sys :=
  { fs := some fullFile, canCreate := true, canAlloc := true, openHandles := 0,
    disk_initialized := false, use_file_backend := true,
    virtual_disk := none, disk_file := false }

/-- A file-backend device before initialization, with no disk image yet. -/
def fileCreateSys : Sys :=
  { fs := none, canCreate := true, canAlloc := true, openHandles := 0,
    disk_initialized := false, use_file_backend := true,
    virtual_disk := none, disk_file := false }

/-- A ready device on the file backend, image file open and full-size. -/
def fileReadySys : Sys :=
  { fs := some fullFile, canCreate := true, canAlloc := true, openHandles := 1,
    disk_initialized := true, use_file_backend := true,
    virtual_disk := none, disk_file := true }

/-! ## Helper lemmas -/

/-- The shared range check passes exactly when the start sector is in
range and the wrapped 32-bit sum does not exceed `TOTAL_SECTORS`. -/
theorem rangeRejected_false_iff (sector count : Nat) :
    rangeRejected sector count = false ↔
      (sector < TOTAL_SECTORS ∧ (sector + count) % U32 ≤ TOTAL_SECTORS) := by
  simp only [rangeRejected, Bool.or_eq_false_iff, decide_eq_false_iff_not, not_le, not_lt]

/-- The shared range check fails exactly on the complementary condition. -/
theorem rangeRejected_true_iff (sector count : Nat) :
    rangeRejected sector count = true ↔
      (TOTAL_SECTORS ≤ sector ∨ TOTAL_SECTORS < (sector + count) % U32) := by
  simp only [rangeRejected, Bool.or_eq_true, decide_eq_true_eq]

/-- The function `disk_read` returns `RES_PARERR` with the caller's buffer untouched
whenever the drive number is wrong, the device is uninitialized, or the
range check rejects. -/
theorem disk_read_parerr (s : Sys) (pdrv : Nat) (buff : Nat → Byte)
    (sector count : Nat)
    (h : pdrv ≠ 0 ∨ s.disk_initialized = false ∨ rangeRejected sector count = true) :
    disk_read s pdrv buff sector count = (DRESULT.RES_PARERR, buff) := by
  unfold disk_read
  by_cases h1 : pdrv ≠ 0 ∨ s.disk_initialized = false
  · rw [if_pos h1]
  · have hrr : rangeRejected sector count = true := by
      rcases h with h | h | h
      · exact absurd (Or.inl h) h1
      · exact absurd (Or.inr h) h1
      · exact h
    rw [if_neg h1, if_pos hrr]

/-- The function `disk_write` returns `RES_PARERR` with the state untouched whenever
the drive number is wrong, the device is uninitialized, or the range
check rejects. -/
theorem disk_write_parerr (s : Sys) (pdrv : Nat) (buff : Nat → Byte)
    (sector count : Nat)
    (h : pdrv ≠ 0 ∨ s.disk_initialized = false ∨ rangeRejected sector count = true) :
    disk_write s pdrv buff sector count = (DRESULT.RES_PARERR, s) := by
  unfold disk_write
  by_cases h1 : pdrv ≠ 0 ∨ s.disk_initialized = false
  · rw [if_pos h1]
  · have hrr : rangeRejected sector count = true := by
      rcases h with h | h | h
      · exact absurd (Or.inl h) h1
      · exact absurd (Or.inr h) h1
      · exact h
    rw [if_neg h1, if_pos hrr]

/-- An accepted `disk_read` on the memory backend copies
`count * SECTOR_SIZE` bytes out of the buffer at the request's byte
offset (both lengths wrapped at 32 bits, as in the C). -/
theorem disk_read_mem_accept (s : Sys) (buff : Nat → Byte) (sector count : Nat)
    (vd : Nat → Byte) (hinit : s.disk_initialized = true)
    (hfb : s.use_file_backend = false) (hvd : s.virtual_disk = some vd)
    (hrr : rangeRejected sector count = false) :
    disk_read s 0 buff sector count =
      (DRESULT.RES_OK, fun a =>
        if a < (count * SECTOR_SIZE) % U32
        then vd ((sector * SECTOR_SIZE) % U32 + a) else buff a) := by
  unfold disk_read
  rw [if_neg (by simp [hinit]), if_neg (by simp [hrr]), if_neg (by simp [hfb]), hvd]

/-- An accepted `disk_write` on the memory backend overwrites the byte
range of the request in the buffer and succeeds. -/
theorem disk_write_mem_accept (s : Sys) (buff : Nat → Byte) (sector count : Nat)
    (vd : Nat → Byte) (hinit : s.disk_initialized = true)
    (hfb : s.use_file_backend = false) (hvd : s.virtual_disk = some vd)
    (hrr : rangeRejected sector count = false) :
    disk_write s 0 buff sector count =
      (DRESULT.RES_OK, { s with virtual_disk := some (fun a =>
        if (sector * SECTOR_SIZE) % U32 ≤ a ∧
            a < (sector * SECTOR_SIZE) % U32 + (count * SECTOR_SIZE) % U32
        then buff (a - (sector * SECTOR_SIZE) % U32) else vd a) }) := by
  unfold disk_write
  rw [if_neg (by simp [hinit]), if_neg (by simp [hrr]), if_neg (by simp [hfb]), hvd]

/-- An accepted `disk_write` on the file backend seeks, writes the byte
range, and flushes. -/
theorem disk_write_file_accept (s : Sys) (buff : Nat → Byte) (sector count : Nat)
    (fr : FileRec) (hinit : s.disk_initialized = true)
    (hfb : s.use_file_backend = true) (hdf : s.disk_file = true)
    (hfs : s.fs = some fr) (hrr : rangeRejected sector count = false) :
    disk_write s 0 buff sector count =
      (DRESULT.RES_OK, { s with fs := some (fflushRec
        (fwriteAt fr ((sector * SECTOR_SIZE) % U32)
          ((count * SECTOR_SIZE) % U32) buff)) }) := by
  unfold disk_write
  rw [if_neg (by simp [hinit]), if_neg (by simp [hrr]),
    if_pos (by simp [hfb, hdf]), hfs]

/-- An accepted `disk_read` on the file backend for which `fread` can
deliver every requested byte succeeds and fills the caller's buffer. -/
theorem disk_read_file_accept (s : Sys) (buff : Nat → Byte) (sector count : Nat)
    (fr : FileRec) (hinit : s.disk_initialized = true)
    (hfb : s.use_file_backend = true) (hdf : s.disk_file = true)
    (hfs : s.fs = some fr) (hrr : rangeRejected sector count = false)
    (hlen : freadLen fr ((sector * SECTOR_SIZE) % U32) ((count * SECTOR_SIZE) % U32)
      = (count * SECTOR_SIZE) % U32) :
    disk_read s 0 buff sector count =
      (DRESULT.RES_OK, freadInto fr ((sector * SECTOR_SIZE) % U32)
        ((count * SECTOR_SIZE) % U32) buff) := by
  unfold disk_read
  rw [if_neg (by simp [hinit]), if_neg (by simp [hrr]),
    if_pos (by simp [hfb, hdf]), hfs]
  simp [hlen]

/-- When every `fwrite` succeeds, the zero-fill loop appends exactly
`n * SECTOR_SIZE` zero bytes and reports success. -/
theorem zeroFillSteps_noFail (nf : Nat → Bool) (hnf : ∀ i, nf i = false) :
    ∀ (n i : Nat) (fr : FileRec),
      (zeroFillSteps nf n i fr).1 = true ∧
      (zeroFillSteps nf n i fr).2.size = fr.size + n * SECTOR_SIZE ∧
      ∀ a, a < fr.size + n * SECTOR_SIZE →
        (zeroFillSteps nf n i fr).2.data a = if a < fr.size then fr.data a else 0 := by
  intro n
  induction n with
  | zero =>
    intro i fr
    refine ⟨rfl, by simp [zeroFillSteps], ?_⟩
    intro a ha
    simp only [Nat.zero_mul, Nat.add_zero] at ha
    simp [zeroFillSteps, ha]
  | succ m ih =>
    intro i fr
    have hstep : zeroFillSteps nf (m + 1) i fr =
        zeroFillSteps nf m (i + 1) (fwriteAt fr fr.size SECTOR_SIZE (fun _ => 0)) := by
      simp [zeroFillSteps, hnf i]
    set fr2 := fwriteAt fr fr.size SECTOR_SIZE (fun _ => 0) with hfr2
    have hsz2 : fr2.size = fr.size + SECTOR_SIZE := by
      simp only [hfr2, fwriteAt, SECTOR_SIZE]
      norm_num
    have hdata2 : ∀ a, fr2.data a =
        if fr.size ≤ a ∧ a < fr.size + SECTOR_SIZE then 0 else fr.data a := by
      intro a
      simp only [hfr2, fwriteAt, SECTOR_SIZE]
      norm_num
      split
      · rfl
      · rw [if_neg]
        omega
    obtain ⟨h1, h2, h3⟩ := ih (i + 1) fr2
    rw [hstep]
    refine ⟨h1, ?_, ?_⟩
    · rw [h2, hsz2]
      simp only [SECTOR_SIZE]
      ring
    · intro a ha
      have hbound : a < fr2.size + m * SECTOR_SIZE := by
        rw [hsz2]
        simp only [SECTOR_SIZE] at *
        omega
      rw [h3 a hbound, hdata2 a]
      by_cases hcase : a < fr.size
      · rw [if_pos (by rw [hsz2]; omega), if_neg (by omega), if_pos hcase]
      · by_cases hcase2 : a < fr.size + SECTOR_SIZE
        · rw [if_pos (by rw [hsz2]; omega), if_pos (by omega), if_neg hcase]
        · rw [if_neg (by rw [hsz2]; omega), if_neg hcase]

/-- When the first failing `fwrite` is iteration `k` (and `k` is inside
the loop bound), the zero-fill loop stops having appended exactly
`k * SECTOR_SIZE` zero bytes, and reports failure. -/
theorem zeroFillSteps_fail (nf : Nat → Bool) :
    ∀ (n i k : Nat) (fr : FileRec), k < n → nf (i + k) = true →
      (∀ j, j < k → nf (i + j) = false) →
      (zeroFillSteps nf n i fr).1 = false ∧
      (zeroFillSteps nf n i fr).2.size = fr.size + k * SECTOR_SIZE := by
  intro n
  induction n with
  | zero =>
    intro i k fr hk
    exact absurd hk (Nat.not_lt_zero k)
  | succ m ih =>
    intro i k fr hk hfail hbefore
    match k with
    | 0 =>
      have h0 : nf i = true := by simpa using hfail
      refine ⟨by simp [zeroFillSteps, h0], by simp [zeroFillSteps, h0]⟩
    | j + 1 =>
      have h0 : nf i = false := by simpa using hbefore 0 (Nat.succ_pos j)
      have hstep : zeroFillSteps nf (m + 1) i fr =
          zeroFillSteps nf m (i + 1) (fwriteAt fr fr.size SECTOR_SIZE (fun _ => 0)) := by
        simp [zeroFillSteps, h0]
      set fr2 := fwriteAt fr fr.size SECTOR_SIZE (fun _ => 0) with hfr2
      have hsz2 : fr2.size = fr.size + SECTOR_SIZE := by
        simp only [hfr2, fwriteAt, SECTOR_SIZE]
        norm_num
      have hfail2 : nf (i + 1 + j) = true := by
        have : i + 1 + j = i + (j + 1) := by omega
        rw [this]
        exact hfail
      have hbefore2 : ∀ l, l < j → nf (i + 1 + l) = false := by
        intro l hl
        have : i + 1 + l = i + (l + 1) := by omega
        rw [this]
        exact hbefore (l + 1) (by omega)
      obtain ⟨h1, h2⟩ := ih (i + 1) j fr2 (by omega) hfail2 hbefore2
      rw [hstep]
      refine ⟨h1, ?_⟩
      rw [h2, hsz2]
      simp only [SECTOR_SIZE]
      ring

/-! ## Claim C1 -/

/-- Claim C1 as stated is false: on a ready device, a request with
`sectorCount = 0` (here `startSector = 0`, `sectorCount = 0`) is accepted
by both `disk_read` and `disk_write`, although the spec's validity
predicate `sectorCount > 0 ∧ ...` rejects it. -/
theorem c1_counterexample :
    (disk_read memReadySys 0 buff0 0 0).1 = DRESULT.RES_OK ∧
    (disk_write memReadySys 0 buff0 0 0).1 = DRESULT.RES_OK ∧
    ¬ validRequestSpec 0 0 := by decide

/-- Claim C1 (amended): on a ready memory-backend device, `disk_read` and
`disk_write` accept a request exactly when `startSector < TOTAL_SECTORS`
and the 32-bit sum `(startSector + sectorCount) % 2^32` is at most
`TOTAL_SECTORS`, and return `RES_PARERR` otherwise.  There is no
`sectorCount > 0` requirement, and the sum is computed at 32-bit width,
so a sum that overflows can falsely validate a request. -/
theorem c1_accept_condition (s : Sys) (sector count : Nat) (buff : Nat → Byte)
    (vd : Nat → Byte) (hinit : s.disk_initialized = true)
    (hfb : s.use_file_backend = false) (hvd : s.virtual_disk = some vd)
    (hsec : sector < U32) (hcnt : count < U32) :
    (disk_read s 0 buff sector count).1 =
      (if sector < TOTAL_SECTORS ∧ (sector + count) % U32 ≤ TOTAL_SECTORS
       then DRESULT.RES_OK else DRESULT.RES_PARERR) ∧
    (disk_write s 0 buff sector count).1 =
      (if sector < TOTAL_SECTORS ∧ (sector + count) % U32 ≤ TOTAL_SECTORS
       then DRESULT.RES_OK else DRESULT.RES_PARERR) := by
  by_cases hc : sector < TOTAL_SECTORS ∧ (sector + count) % U32 ≤ TOTAL_SECTORS
  · have hrr : rangeRejected sector count = false :=
      (rangeRejected_false_iff sector count).mpr hc
    rw [disk_read_mem_accept s buff sector count vd hinit hfb hvd hrr,
      disk_write_mem_accept s buff sector count vd hinit hfb hvd hrr,
      if_pos hc]
    exact ⟨rfl, rfl⟩
  · have hrr : rangeRejected sector count = true := by
      rw [rangeRejected_true_iff]
      omega
    rw [disk_read_parerr s 0 buff sector count (Or.inr (Or.inr hrr)),
      disk_write_parerr s 0 buff sector count (Or.inr (Or.inr hrr)),
      if_neg hc]
    exact ⟨rfl, rfl⟩

/-- Witness for `c1_accept_condition` at the in-range request `(0, 1)`
on the concrete ready memory-backend device. -/
theorem c1_accept_condition_witness :
    (disk_read memReadySys 0 buff0 0 1).1 =
      (if 0 < TOTAL_SECTORS ∧ (0 + 1) % U32 ≤ TOTAL_SECTORS
       then DRESULT.RES_OK else DRESULT.RES_PARERR) ∧
    (disk_write memReadySys 0 buff0 0 1).1 =
      (if 0 < TOTAL_SECTORS ∧ (0 + 1) % U32 ≤ TOTAL_SECTORS
       then DRESULT.RES_OK else DRESULT.RES_PARERR) :=
  c1_accept_condition memReadySys 0 1 buff0 (fun _ => 0) rfl rfl rfl
    (by decide) (by decide)

/-! ## Claim C3 -/

/-- Claim C3 as stated is false: the request `(1, 2^32 - 1)` is out of
range (its true sum exceeds `TOTAL_SECTORS`), yet on a ready device both
`disk_read` and `disk_write` accept it — the 32-bit sum wraps to 0 — and
proceed to the backend instead of reporting a parameter error. -/
theorem c3_counterexample :
    TOTAL_SECTORS < 1 + (U32 - 1) ∧
    (disk_read memReadySys 0 buff0 1 (U32 - 1)).1 = DRESULT.RES_OK ∧
    (disk_write memReadySys 0 buff0 1 (U32 - 1)).1 = DRESULT.RES_OK := by decide

/-- Claim C3 (amended): every request that the 32-bit range check sees as
out of range — `startSector ≥ TOTAL_SECTORS`, or
`(startSector + sectorCount) % 2^32 > TOTAL_SECTORS` — is rejected by
both `disk_read` and `disk_write` with `RES_PARERR` before any backend
access: the caller's buffer and the whole device/backend state are
returned unchanged.  (Requests whose exact sum overflows past `2^32` can
evade this check; see the counterexample.) -/
theorem c3_reject_out_of_range (s : Sys) (sector count : Nat) (buff : Nat → Byte)
    (h : TOTAL_SECTORS ≤ sector ∨ TOTAL_SECTORS < (sector + count) % U32) :
    disk_read s 0 buff sector count = (DRESULT.RES_PARERR, buff) ∧
    disk_write s 0 buff sector count = (DRESULT.RES_PARERR, s) := by
  have hrr : rangeRejected sector count = true :=
    (rangeRejected_true_iff sector count).mpr h
  exact ⟨disk_read_parerr s 0 buff sector count (Or.inr (Or.inr hrr)),
    disk_write_parerr s 0 buff sector count (Or.inr (Or.inr hrr))⟩

/-- Witness for `c3_reject_out_of_range` at the out-of-range request
`(9000, 1)` on the concrete ready memory-backend device. -/
theorem c3_reject_out_of_range_witness :
    disk_read memReadySys 0 buff0 9000 1 = (DRESULT.RES_PARERR, buff0) ∧
    disk_write memReadySys 0 buff0 9000 1 = (DRESULT.RES_PARERR, memReadySys) :=
  c3_reject_out_of_range memReadySys 9000 1 buff0 (Or.inl (by decide))

/-! ## Claim C4 -/

/-- Claim C4 as stated is false: before initialization `disk_read` and
`disk_write` return `RES_PARERR`, which is exactly the result value also
returned for an invalid range on a ready device and for an unknown drive
number — the not-ready failure is not distinct or inspectable as such. -/
theorem c4_counterexample :
    (disk_read memUninitSys 0 buff0 0 1).1 = DRESULT.RES_PARERR ∧
    (disk_write memUninitSys 0 buff0 0 1).1 = DRESULT.RES_PARERR ∧
    (disk_read memReadySys 0 buff0 9000 1).1 = DRESULT.RES_PARERR ∧
    (disk_read memUninitSys 1 buff0 0 1).1 = DRESULT.RES_PARERR := by decide

/-- Claim C4 (amended): every `disk_read` or `disk_write` before a
successful initialize reports `RES_PARERR` — the same result value as
for invalid ranges and unknown drives, so not a distinct `NotReady`
code — performs no backend access, and leaves the caller's buffer and
the device state unchanged. -/
theorem c4_not_ready_parerr (s : Sys) (pdrv sector count : Nat)
    (buff : Nat → Byte) (h : s.disk_initialized = false) :
    disk_read s pdrv buff sector count = (DRESULT.RES_PARERR, buff) ∧
    disk_write s pdrv buff sector count = (DRESULT.RES_PARERR, s) :=
  ⟨disk_read_parerr s pdrv buff sector count (Or.inr (Or.inl h)),
    disk_write_parerr s pdrv buff sector count (Or.inr (Or.inl h))⟩

/-- Witness for `c4_not_ready_parerr` on the concrete uninitialized
memory-backend device at request `(0, 1)`. -/
theorem c4_not_ready_parerr_witness :
    disk_read memUninitSys 0 buff0 0 1 = (DRESULT.RES_PARERR, buff0) ∧
    disk_write memUninitSys 0 buff0 0 1 = (DRESULT.RES_PARERR, memUninitSys) :=
  c4_not_ready_parerr memUninitSys 0 0 1 buff0 rfl

/-! ## Claim C2 -/

/-- Claim C2 (confirmed): on any initialized device, for any valid range
(`count > 0`, `sector + count ≤ TOTAL_SECTORS`), writing bytes `B` with
`disk_write` and then reading the same range with `disk_read` succeeds
and returns exactly `B`, for the memory backend (`sm`) and for the file
backend (`sf`) alike. -/
theorem c2_write_read_roundtrip (sector count : Nat) (B buff : Nat → Byte)
    (sm sf : Sys) (vd : Nat → Byte) (fr : FileRec)
    (hc : 0 < count) (hr : sector + count ≤ TOTAL_SECTORS)
    (hm1 : sm.disk_initialized = true) (hm2 : sm.use_file_backend = false)
    (hm3 : sm.virtual_disk = some vd)
    (hf1 : sf.disk_initialized = true) (hf2 : sf.use_file_backend = true)
    (hf3 : sf.disk_file = true) (hf4 : sf.fs = some fr) :
    ((disk_write sm 0 B sector count).1 = DRESULT.RES_OK ∧
     (disk_read (disk_write sm 0 B sector count).2 0 buff sector count).1 =
       DRESULT.RES_OK ∧
     ∀ a, a < count * SECTOR_SIZE →
       (disk_read (disk_write sm 0 B sector count).2 0 buff sector count).2 a = B a) ∧
    ((disk_write sf 0 B sector count).1 = DRESULT.RES_OK ∧
     (disk_read (disk_write sf 0 B sector count).2 0 buff sector count).1 =
       DRESULT.RES_OK ∧
     ∀ a, a < count * SECTOR_SIZE →
       (disk_read (disk_write sf 0 B sector count).2 0 buff sector count).2 a = B a) := by
  have h32 : U32 = 4294967296 := by norm_num [U32]
  have hts : TOTAL_SECTORS = 8192 := rfl
  have hss : SECTOR_SIZE = 512 := rfl
  have hsec : sector < TOTAL_SECTORS := by omega
  have hsec8 : sector < 8192 := by omega
  have hcnt8 : count ≤ 8192 := by omega
  have hmod : (sector + count) % U32 = sector + count := by
    rw [h32]; exact Nat.mod_eq_of_lt (by omega)
  have hrr : rangeRejected sector count = false := by
    rw [rangeRejected_false_iff, hmod]; exact ⟨hsec, hr⟩
  have hposmod : (sector * SECTOR_SIZE) % U32 = sector * SECTOR_SIZE := by
    rw [h32, hss]; exact Nat.mod_eq_of_lt (by omega)
  have hcntmod : (count * SECTOR_SIZE) % U32 = count * SECTOR_SIZE := by
    rw [h32, hss]; exact Nat.mod_eq_of_lt (by omega)
  have hn0 : ¬ (count * SECTOR_SIZE = 0) := by
    rw [hss]; omega
  constructor
  · -- memory backend
    have hw := disk_write_mem_accept sm B sector count vd hm1 hm2 hm3 hrr
    rw [hposmod, hcntmod] at hw
    have hread := disk_read_mem_accept
      { sm with virtual_disk := some (fun a =>
          if sector * SECTOR_SIZE ≤ a ∧ a < sector * SECTOR_SIZE + count * SECTOR_SIZE
          then B (a - sector * SECTOR_SIZE) else vd a) }
      buff sector count
      (fun a =>
        if sector * SECTOR_SIZE ≤ a ∧ a < sector * SECTOR_SIZE + count * SECTOR_SIZE
        then B (a - sector * SECTOR_SIZE) else vd a)
      hm1 hm2 rfl hrr
    rw [hposmod, hcntmod] at hread
    rw [hw]
    refine ⟨rfl, ?_, ?_⟩
    · rw [show ((DRESULT.RES_OK, { sm with virtual_disk := some (fun a =>
          if sector * SECTOR_SIZE ≤ a ∧ a < sector * SECTOR_SIZE + count * SECTOR_SIZE
          then B (a - sector * SECTOR_SIZE) else vd a) }) :
          DRESULT × Sys).2 = _ from rfl, hread]
    · intro a ha
      rw [show ((DRESULT.RES_OK, { sm with virtual_disk := some (fun a =>
          if sector * SECTOR_SIZE ≤ a ∧ a < sector * SECTOR_SIZE + count * SECTOR_SIZE
          then B (a - sector * SECTOR_SIZE) else vd a) }) :
          DRESULT × Sys).2 = _ from rfl, hread]
      have h1 : sector * SECTOR_SIZE ≤ sector * SECTOR_SIZE + a := Nat.le_add_right _ _
      have h2 : sector * SECTOR_SIZE + a <
          sector * SECTOR_SIZE + count * SECTOR_SIZE := by omega
      simp only [if_pos ha, if_pos (And.intro h1 h2)]
      congr 1
      omega
  · -- file backend
    have hw := disk_write_file_accept sf B sector count fr hf1 hf2 hf3 hf4 hrr
    rw [hposmod, hcntmod] at hw
    have hsize2 : (fwriteAt fr (sector * SECTOR_SIZE) (count * SECTOR_SIZE) B).size =
        max fr.size (sector * SECTOR_SIZE + count * SECTOR_SIZE) := by
      simp [fwriteAt, hn0]
    have hdata2 : ∀ x, sector * SECTOR_SIZE ≤ x →
        x < sector * SECTOR_SIZE + count * SECTOR_SIZE →
        (fwriteAt fr (sector * SECTOR_SIZE) (count * SECTOR_SIZE) B).data x =
          B (x - sector * SECTOR_SIZE) := by
      intro x hx1 hx2
      simp [fwriteAt, hn0, hx1, hx2]
    have hlen : freadLen
        (fflushRec (fwriteAt fr (sector * SECTOR_SIZE) (count * SECTOR_SIZE) B))
        (sector * SECTOR_SIZE) (count * SECTOR_SIZE) = count * SECTOR_SIZE := by
      have hsz3 : (fflushRec (fwriteAt fr (sector * SECTOR_SIZE)
          (count * SECTOR_SIZE) B)).size =
          max fr.size (sector * SECTOR_SIZE + count * SECTOR_SIZE) := hsize2
      rw [freadLen, hsz3, if_pos (by omega)]
      omega
    have hread := disk_read_file_accept
      { sf with fs := some (fflushRec
          (fwriteAt fr (sector * SECTOR_SIZE) (count * SECTOR_SIZE) B)) }
      buff sector count
      (fflushRec (fwriteAt fr (sector * SECTOR_SIZE) (count * SECTOR_SIZE) B))
      hf1 hf2 hf3 rfl hrr (by rw [hposmod, hcntmod]; exact hlen)
    rw [hposmod, hcntmod] at hread
    rw [hw]
    refine ⟨rfl, ?_, ?_⟩
    · rw [show ((DRESULT.RES_OK, { sf with fs := some (fflushRec
          (fwriteAt fr (sector * SECTOR_SIZE) (count * SECTOR_SIZE) B)) }) :
          DRESULT × Sys).2 = _ from rfl, hread]
    · intro a ha
      rw [show ((DRESULT.RES_OK, { sf with fs := some (fflushRec
          (fwriteAt fr (sector * SECTOR_SIZE) (count * SECTOR_SIZE) B)) }) :
          DRESULT × Sys).2 = _ from rfl, hread]
      simp only [freadInto]
      rw [hlen, if_pos ha]
      have hdata3 : (fflushRec (fwriteAt fr (sector * SECTOR_SIZE)
          (count * SECTOR_SIZE) B)).data (sector * SECTOR_SIZE + a) =
          B (sector * SECTOR_SIZE + a - sector * SECTOR_SIZE) :=
        hdata2 (sector * SECTOR_SIZE + a) (Nat.le_add_right _ _) (by omega)
      rw [hdata3]
      congr 1
      omega

/-- Witness for `c2_write_read_roundtrip` at sector 0, one sector of
byte value 170, on the concrete memory-backend and file-backend ready
devices: byte 5 of the read-back equals 170 on both. -/
theorem c2_write_read_roundtrip_witness :
    (disk_write memReadySys 0 (fun _ => 170) 0 1).1 = DRESULT.RES_OK ∧
    (disk_read (disk_write memReadySys 0 (fun _ => 170) 0 1).2 0 buff0 0 1).2 5 = 170 ∧
    (disk_write fileReadySys 0 (fun _ => 170) 0 1).1 = DRESULT.RES_OK ∧
    (disk_read (disk_write fileReadySys 0 (fun _ => 170) 0 1).2 0 buff0 0 1).2 5 = 170 := by
  have h := c2_write_read_roundtrip 0 1 (fun _ => 170) buff0 memReadySys fileReadySys
    (fun _ => 0) fullFile (by decide) (by decide) rfl rfl rfl rfl rfl rfl rfl
  exact ⟨h.1.1, h.1.2.2 5 (by decide), h.2.1, h.2.2.2 5 (by decide)⟩

/-! ## Claim C5 -/

/-- Claim C5 as stated is false: with the file backend, the second
`disk_initialize` in succession re-opens the backing file — after two
calls two `FILE*` handles have been opened and only the second is
retained by `disk_file`, leaking the first. -/
theorem c5_counterexample :
    (disk_init fileFreshSys 0 noFail).1 = 0 ∧
    (disk_init fileFreshSys 0 noFail).2.openHandles = 1 ∧
    (disk_init (disk_init fileFreshSys 0 noFail).2 0 noFail).1 = 0 ∧
    (disk_init (disk_init fileFreshSys 0 noFail).2 0 noFail).2.openHandles = 2 := by
  decide

/-- Claim C5 (amended): on an already initialized device whose backend is
present, a further `disk_initialize` succeeds and alters neither the
backing file contents nor the memory buffer (no reallocation); however,
with the file backend it re-opens the backing file, adding one more open
handle (the previous handle is not closed), while with the memory
backend the state is fully unchanged. -/
theorem c5_second_init (s : Sys) (nf : Nat → Bool)
    (hinit : s.disk_initialized = true)
    (hwf : s.use_file_backend = true → s.fs.isSome = true)
    (hwm : s.use_file_backend = false → s.virtual_disk.isSome = true) :
    (disk_init s 0 nf).1 = 0 ∧
    (disk_init s 0 nf).2.fs = s.fs ∧
    (disk_init s 0 nf).2.virtual_disk = s.virtual_disk ∧
    (disk_init s 0 nf).2.disk_initialized = true ∧
    (disk_init s 0 nf).2.openHandles =
      s.openHandles + (if s.use_file_backend = true then 1 else 0) := by
  cases hufb : s.use_file_backend with
  | true =>
    obtain ⟨fr, hfr⟩ := Option.isSome_iff_exists.mp (hwf hufb)
    unfold disk_init init_virtual_disk
    simp [hufb, hfr]
  | false =>
    obtain ⟨vdv, hvd⟩ := Option.isSome_iff_exists.mp (hwm hufb)
    unfold disk_init init_virtual_disk
    simp [hufb, hvd]

/-- Witness for `c5_second_init` on the concrete ready file-backend
device. -/
theorem c5_second_init_witness :
    (disk_init fileReadySys 0 noFail).1 = 0 ∧
    (disk_init fileReadySys 0 noFail).2.fs = fileReadySys.fs ∧
    (disk_init fileReadySys 0 noFail).2.virtual_disk = fileReadySys.virtual_disk ∧
    (disk_init fileReadySys 0 noFail).2.disk_initialized = true ∧
    (disk_init fileReadySys 0 noFail).2.openHandles =
      fileReadySys.openHandles + (if fileReadySys.use_file_backend = true then 1 else 0) :=
  c5_second_init fileReadySys noFail rfl (fun _ => rfl) (by decide)

/-! ## Claim C6 -/

/-- Claim C6 (confirmed): with the file backend and no disk image on
disk, a successful `disk_initialize` (every `fwrite` succeeding) creates
the backing file with exactly `TOTAL_SECTORS * SECTOR_SIZE` bytes, all
zero, flushed, before the device becomes Ready; the call returns 0 and
the device is then initialized. -/
theorem c6_create_zero_filled (s : Sys) (nf : Nat → Bool)
    (hfb : s.use_file_backend = true) (hfs : s.fs = none) (hcc : s.canCreate = true)
    (hnf : ∀ i, nf i = false) :
    (disk_init s 0 nf).1 = 0 ∧
    (disk_init s 0 nf).2.disk_initialized = true ∧
    ∃ fr, (disk_init s 0 nf).2.fs = some fr ∧
      fr.size = TOTAL_SECTORS * SECTOR_SIZE ∧ fr.flushed = true ∧
      ∀ a, a < TOTAL_SECTORS * SECTOR_SIZE → fr.data a = 0 := by
  obtain ⟨h1, h2, h3⟩ := zeroFillSteps_noFail nf hnf TOTAL_SECTORS 0 emptyFile
  rcases hzf : zeroFillSteps nf TOTAL_SECTORS 0 emptyFile with ⟨b, fr0⟩
  rw [hzf] at h1 h2 h3
  simp only [Prod.fst] at h1
  subst h1
  unfold disk_init init_virtual_disk
  simp only [hfb, hfs, hcc, hzf, if_true, ite_true]
  refine ⟨by trivial, by trivial, fflushRec fr0, by trivial, ?_, by trivial, ?_⟩
  · simpa [emptyFile] using h2
  · intro a ha
    have hb : a < emptyFile.size + TOTAL_SECTORS * SECTOR_SIZE := by
      simpa [emptyFile] using ha
    have := h3 a hb
    simpa [emptyFile] using this

/-- Witness for `c6_create_zero_filled` on the concrete fresh
file-backend device with the all-success oracle: initialization succeeds,
the device is Ready, and the created image has full size. -/
theorem c6_create_zero_filled_witness :
    (disk_init fileCreateSys 0 noFail).1 = 0 ∧
    (disk_init fileCreateSys 0 noFail).2.disk_initialized = true ∧
    Option.map FileRec.size (disk_init fileCreateSys 0 noFail).2.fs =
      some (TOTAL_SECTORS * SECTOR_SIZE) := by
  have h := c6_create_zero_filled fileCreateSys noFail rfl rfl rfl (fun i => rfl)
  obtain ⟨fr, hfr, hsz, _, _⟩ := h.2.2
  exact ⟨h.1, h.2.1, by rw [hfr]; simp [hsz]⟩

/-! ## Claim C8 -/

/-- Claim C8 as stated is false: when the zero-fill fails (here at the
fourth sector), `disk_initialize` reports failure and closes the handle,
but the half-created backing file is not discarded — it remains on disk
with the partial size `3 * SECTOR_SIZE`. -/
theorem c8_counterexample :
    (disk_init fileCreateSys 0 failAt3).1 = STA_NOINIT ∧
    (disk_init fileCreateSys 0 failAt3).2.fs.isSome = true ∧
    Option.map FileRec.size (disk_init fileCreateSys 0 failAt3).2.fs =
      some (3 * SECTOR_SIZE) := by decide

/-- Claim C8 (amended): if the zero-fill during a file-backend
`disk_initialize` against a nonexistent path first fails at iteration
`k`, the call reports failure (`STA_NOINIT`), the device does not become
Ready, the file handle is closed and `disk_file` is NULL with no handle
leaked (the open-handle count is restored); however the partially
written backing file of `k * SECTOR_SIZE` bytes remains on disk rather
than being discarded. -/
theorem c8_init_failure (s : Sys) (nf : Nat → Bool) (k : Nat)
    (hfb : s.use_file_backend = true) (hfs : s.fs = none)
    (hinit : s.disk_initialized = false) (hcc : s.canCreate = true)
    (hk : k < TOTAL_SECTORS) (hfail : nf k = true)
    (hbefore : ∀ j, j < k → nf j = false) :
    (disk_init s 0 nf).1 = STA_NOINIT ∧
    (disk_init s 0 nf).2.disk_initialized = false ∧
    (disk_init s 0 nf).2.disk_file = false ∧
    (disk_init s 0 nf).2.openHandles = s.openHandles ∧
    Option.map FileRec.size (disk_init s 0 nf).2.fs = some (k * SECTOR_SIZE) := by
  have hzf0 := zeroFillSteps_fail nf TOTAL_SECTORS 0 k emptyFile hk
    (by simpa using hfail) (by intro j hj; simpa using hbefore j hj)
  rcases hzf : zeroFillSteps nf TOTAL_SECTORS 0 emptyFile with ⟨b, fr0⟩
  rw [hzf] at hzf0
  obtain ⟨h1, h2⟩ := hzf0
  simp only [Prod.fst] at h1
  subst h1
  unfold disk_init init_virtual_disk
  simp only [hfb, hfs, hcc, hzf, if_true, ite_true]
  refine ⟨by trivial, by simpa using hinit, by trivial, by trivial, ?_⟩
  simpa [fflushRec, emptyFile] using h2

/-- Witness for `c8_init_failure` on the concrete fresh file-backend
device with the oracle failing first at iteration 3. -/
theorem c8_init_failure_witness :
    (disk_init fileCreateSys 0 failAt3).1 = STA_NOINIT ∧
    (disk_init fileCreateSys 0 failAt3).2.disk_initialized = false ∧
    (disk_init fileCreateSys 0 failAt3).2.disk_file = false ∧
    (disk_init fileCreateSys 0 failAt3).2.openHandles = fileCreateSys.openHandles ∧
    Option.map FileRec.size (disk_init fileCreateSys 0 failAt3).2.fs =
      some (3 * SECTOR_SIZE) :=
  c8_init_failure fileCreateSys failAt3 3 rfl rfl rfl rfl (by decide) (by decide)
    (by decide)

/-! ## Claim C7 -/

/-- Claim C7 (confirmed): for drive 0, `disk_ioctl` answers
`GET_SECTOR_COUNT` with exactly 8192 and `GET_SECTOR_SIZE` with exactly
512 in every device state (including before initialize, since only the
drive number is checked), and any command other than the four supported
ones reports `RES_PARERR` with state unchanged. -/
theorem c7_ioctl_geometry (s : Sys) (cmd : Nat)
    (h0 : cmd ≠ CTRL_SYNC) (h1 : cmd ≠ GET_SECTOR_COUNT)
    (h2 : cmd ≠ GET_SECTOR_SIZE) (h3 : cmd ≠ GET_BLOCK_SIZE) :
    disk_ioctl s 0 GET_SECTOR_COUNT = (DRESULT.RES_OK, some 8192, s) ∧
    disk_ioctl s 0 GET_SECTOR_SIZE = (DRESULT.RES_OK, some 512, s) ∧
    disk_ioctl s 0 cmd = (DRESULT.RES_PARERR, none, s) := by
  unfold disk_ioctl
  refine ⟨?_, ?_, ?_⟩
  · simp [CTRL_SYNC, GET_SECTOR_COUNT, TOTAL_SECTORS]
  · simp [CTRL_SYNC, GET_SECTOR_COUNT, GET_SECTOR_SIZE, SECTOR_SIZE]
  · rw [if_neg (by norm_num), if_neg h0, if_neg h1, if_neg h2, if_neg h3]

/-- Witness for `c7_ioctl_geometry` on the concrete uninitialized device
with the unsupported command code 7. -/
theorem c7_ioctl_geometry_witness :
    disk_ioctl memUninitSys 0 GET_SECTOR_COUNT = (DRESULT.RES_OK, some 8192, memUninitSys) ∧
    disk_ioctl memUninitSys 0 GET_SECTOR_SIZE = (DRESULT.RES_OK, some 512, memUninitSys) ∧
    disk_ioctl memUninitSys 0 7 = (DRESULT.RES_PARERR, none, memUninitSys) :=
  c7_ioctl_geometry memUninitSys 7 (by decide) (by decide) (by decide) (by decide)

/-! ## Claim C9 -/

/-- Claim C9 (confirmed): on an initialized device whose backend is
present, a request with `sectorCount = 0` and `startSector` in range is
accepted by both `disk_read` and `disk_write`: both return `RES_OK`,
the read transfers no bytes (caller's buffer returned untouched), and
the write leaves the buffer contents, file bytes and size, ready flag
and handle count unchanged (the file backend merely flushes). -/
theorem c9_zero_count (s : Sys) (sector : Nat) (buff : Nat → Byte)
    (hinit : s.disk_initialized = true) (hsec : sector < TOTAL_SECTORS)
    (hb : backendPresent s = true) :
    disk_read s 0 buff sector 0 = (DRESULT.RES_OK, buff) ∧
    (disk_write s 0 buff sector 0).1 = DRESULT.RES_OK ∧
    (disk_write s 0 buff sector 0).2.virtual_disk = s.virtual_disk ∧
    Option.map FileRec.data (disk_write s 0 buff sector 0).2.fs =
      Option.map FileRec.data s.fs ∧
    Option.map FileRec.size (disk_write s 0 buff sector 0).2.fs =
      Option.map FileRec.size s.fs ∧
    (disk_write s 0 buff sector 0).2.disk_initialized = true ∧
    (disk_write s 0 buff sector 0).2.openHandles = s.openHandles := by
  have h32 : U32 = 4294967296 := by norm_num [U32]
  have hts : TOTAL_SECTORS = 8192 := rfl
  have hrr : rangeRejected sector 0 = false := by
    rw [rangeRejected_false_iff]
    constructor
    · exact hsec
    · rw [Nat.add_zero, h32, Nat.mod_eq_of_lt (by omega)]
      omega
  have hn : (0 * SECTOR_SIZE) % U32 = 0 := by simp
  by_cases hcond : s.use_file_backend = true ∧ s.disk_file = true
  · -- file backend path
    have hbp : s.fs.isSome = true := by
      unfold backendPresent at hb
      rwa [if_pos (by rw [hcond.1, hcond.2]; rfl)] at hb
    obtain ⟨fr, hfr⟩ := Option.isSome_iff_exists.mp hbp
    have hlen : freadLen fr ((sector * SECTOR_SIZE) % U32) ((0 * SECTOR_SIZE) % U32) =
        (0 * SECTOR_SIZE) % U32 := by
      rw [hn]
      unfold freadLen
      split <;> simp
    have hread := disk_read_file_accept s buff sector 0 fr hinit hcond.1 hcond.2
      hfr hrr hlen
    have hwrite := disk_write_file_accept s buff sector 0 fr hinit hcond.1 hcond.2
      hfr hrr
    rw [hn] at hwrite
    have hfw : fwriteAt fr ((sector * SECTOR_SIZE) % U32) 0 buff = fr := by
      unfold fwriteAt
      rw [if_pos rfl]
    rw [hfw] at hwrite
    have hbuf : freadInto fr ((sector * SECTOR_SIZE) % U32) ((0 * SECTOR_SIZE) % U32)
        buff = buff := by
      funext a
      unfold freadInto
      rw [hlen, hn]
      simp
    rw [hread, hbuf, hwrite]
    exact ⟨rfl, rfl, rfl, by rw [hfr]; rfl, by rw [hfr]; rfl, hinit, rfl⟩
  · -- memory backend path
    have hbf : (s.use_file_backend && s.disk_file) = false := by
      cases hu : s.use_file_backend <;> cases hd : s.disk_file <;> simp_all
    have hbp : s.virtual_disk.isSome = true := by
      unfold backendPresent at hb
      rwa [if_neg (by rw [hbf]; simp)] at hb
    obtain ⟨vd, hvd⟩ := Option.isSome_iff_exists.mp hbp
    have hnot : ¬ (0 ≠ 0 ∨ s.disk_initialized = false) := by simp [hinit]
    constructor
    · unfold disk_read
      rw [if_neg hnot, if_neg (by simp [hrr]), if_neg hcond, hvd]
      refine Prod.ext rfl ?_
      funext a
      simp [hn]
    · unfold disk_write
      rw [if_neg hnot, if_neg (by simp [hrr]), if_neg hcond, hvd]
      have hvd2 : (fun a => if (sector * SECTOR_SIZE) % U32 ≤ a ∧
          a < (sector * SECTOR_SIZE) % U32 + (0 * SECTOR_SIZE) % U32
          then buff (a - (sector * SECTOR_SIZE) % U32) else vd a) = vd := by
        funext a
        rw [hn, if_neg (by omega)]
      refine ⟨rfl, ?_, rfl, rfl, hinit, rfl⟩
      simp only [Prod.snd]
      rw [hvd2]

/-- Witness for `c9_zero_count` at sector 0 on the concrete ready
memory-backend device. -/
theorem c9_zero_count_witness :
    disk_read memReadySys 0 buff0 0 0 = (DRESULT.RES_OK, buff0) ∧
    (disk_write memReadySys 0 buff0 0 0).1 = DRESULT.RES_OK ∧
    (disk_write memReadySys 0 buff0 0 0).2.virtual_disk = memReadySys.virtual_disk ∧
    Option.map FileRec.data (disk_write memReadySys 0 buff0 0 0).2.fs =
      Option.map FileRec.data memReadySys.fs ∧
    Option.map FileRec.size (disk_write memReadySys 0 buff0 0 0).2.fs =
      Option.map FileRec.size memReadySys.fs ∧
    (disk_write memReadySys 0 buff0 0 0).2.disk_initialized = true ∧
    (disk_write memReadySys 0 buff0 0 0).2.openHandles = memReadySys.openHandles :=
  c9_zero_count memReadySys 0 buff0 rfl (by decide) (by decide)

/-! ## Claim C10 -/

/-- Claim C10 (confirmed): `get_disk_info` writes 8192 into a non-NULL
`total_sectors` pointer and 512 into a non-NULL `sector_size` pointer,
skips any NULL pointer, never fails (it is a total function), and its
behavior does not depend on the device state at all. -/
theorem c10_get_disk_info (s1 s2 : Sys) (t ss : Option Nat) (v w : Nat) :
    get_disk_info s1 (some v) (some w) = (some 8192, some 512) ∧
    get_disk_info s1 none (some w) = (none, some 512) ∧
    get_disk_info s1 (some v) none = (some 8192, none) ∧
    get_disk_info s1 none none = (none, none) ∧
    get_disk_info s1 t ss = get_disk_info s2 t ss :=
  ⟨rfl, rfl, rfl, rfl, rfl⟩

end DiskIO
